import Mathlib

/-!
Verification development for the NeuCom memory engine (`neucom/memory.py`).

Tensors are shallowly embedded as curried functions over `Fin` index types, with the
batch dimension first: a torch tensor of shape `[B, N, W]` becomes
`Fin B → Fin N → Fin W → α`.  Scalar entries are taken in a linear ordered field
(`ℚ` for executable statements, `ℝ` where the source uses `exp`/`sqrt`), which models
the source's floating-point arithmetic exactly, overflow and rounding aside.

Each definition is translated from the corresponding method of `Memory` in
`neucom/memory.py`; helpers that live in the absent `neucom/utils.py` are modelled
from the specification and say so in their doc comment.
-/

namespace Neucom

variable {α : Type} [LinearOrderedField α]

/-- Modelled from the spec: `torch.mm` is applied throughout `neucom/memory.py` to
3-D tensors, i.e. used as the batched matrix product (one matrix product per batch
row, contracting over the middle dimension). -/
def mm {B n m p : ℕ} (X : Fin B → Fin n → Fin m → α) (Y : Fin B → Fin m → Fin p → α) :
    Fin B → Fin n → Fin p → α :=
  fun b i j => ∑ k, X b i k * Y b k j

/-- `t.transpose(0,1)` on a 3-D tensor: swaps dimension 0 (the batch dimension)
with dimension 1 (the first matrix dimension). -/
def transpose01 {B n m : ℕ} (X : Fin B → Fin n → Fin m → α) : Fin n → Fin B → Fin m → α :=
  fun i b j => X b i j

/-- The `mem_tuple` namedtuple holding the seven state tensors
(`memory.py` lines 33-34). -/
structure MemState (B N W R : ℕ) (α : Type) where
  mem_mat : Fin B → Fin N → Fin W → α
  mem_usage : Fin B → Fin N → α
  pre_vec : Fin B → Fin N → α
  link_mat : Fin B → Fin N → Fin N → α
  write_weight : Fin B → Fin N → α
  read_weight : Fin B → Fin N → Fin R → α
  read_vec : Fin B → Fin W → Fin R → α

/-- `Memory.init_memory` (`memory.py` lines 36-51): memory matrix, write weighting,
read weighting and read vector are filled with `1e-6`; usage vector, precedence
vector and link matrix are all zero. -/
def init_memory (B N W R : ℕ) : MemState B N W R α where
  mem_mat := fun _ _ _ => 1 / 1000000
  mem_usage := fun _ _ => 0
  pre_vec := fun _ _ => 0
  link_mat := fun _ _ _ => 0
  write_weight := fun _ _ => 1 / 1000000
  read_weight := fun _ _ _ => 1 / 1000000
  read_vec := fun _ _ _ => 1 / 1000000

/-- `Memory.update_usage_vector` (`memory.py` lines 76-95).  Note the source's
retention factor is `prod(2 - read_weights * free_gates, 2)` — with the literal
`2`, exactly as on line 92 — where `free_gates` has been broadcast over the slot
dimension. -/
def update_usage_vector {B N R : ℕ} (usage_vector : Fin B → Fin N → α)
    (read_weights : Fin B → Fin N → Fin R → α) (write_weight : Fin B → Fin N → α)
    (free_gates : Fin B → Fin R → α) : Fin B → Fin N → α :=
  fun b n =>
    (usage_vector b n + write_weight b n - usage_vector b n * write_weight b n) *
      ∏ r, (2 - read_weights b n r * free_gates b r)

/-- The flattened scatter of `memory.py` lines 117-129: `free_list` is offset by
the per-batch-row index mapper (modelled from the spec, design note on the
identity index-mapper trick: row `b` is offset by `b * mem_slot`, so the flat
scatter writes batch row `b` of `unordered_allocation_weight` into batch row `b`
of the container, entry `p` landing at column `free_list b p`).  `free_list` is a
permutation of each row in every use, so at most one summand is non-zero. -/
def scatter_rows {B N : ℕ} (free_list : Fin B → Fin N → Fin N)
    (w : Fin B → Fin N → α) : Fin B → Fin N → α :=
  fun b i => ∑ p, if free_list b p = i then w b p else 0

/-- `Memory.get_allocation_weight` (`memory.py` lines 97-129).  Line 112 forms the
inclusive cumulative product along the sorted axis and divides it — elementwise,
with numpy/torch row indexing — by `sorted_usage[0]`, the first *batch row* of
`sorted_usage`; line 113 further divides the last batch row by `sorted_usage[-1]`,
the last batch row of `sorted_usage`.  The batch size is written `B + 1` because
the source indexes rows `0` and `-1`, which requires at least one batch row. -/
def get_allocation_weight {B N : ℕ} (sorted_usage : Fin (B + 1) → Fin N → α)
    (free_list : Fin (B + 1) → Fin N → Fin N) : Fin (B + 1) → Fin N → α :=
  let cumprod : Fin (B + 1) → Fin N → α := fun b p => ∏ q ∈ Finset.Iic p, sorted_usage b q
  let row_div : Fin (B + 1) → Fin N → α := fun b p => cumprod b p / sorted_usage 0 p
  let shifted_cumprod : Fin (B + 1) → Fin N → α := fun b p =>
    if b = Fin.last B then row_div b p / sorted_usage (Fin.last B) p else row_div b p
  let unordered_allocation_weight : Fin (B + 1) → Fin N → α := fun b p =>
    (1 - sorted_usage b p) * shifted_cumprod b p
  scatter_rows free_list unordered_allocation_weight

/-- Follows the words of the spec (§4.3), for comparison with
`get_allocation_weight`: the unordered weight at sorted position `p` is
`(1 − sortedUsage[p])` times the *exclusive* cumulative product of `sortedUsage`
over positions `0..p-1` (the empty product `1` at position 0), scattered back
through the free-list permutation. -/
def allocation_weight_spec {B N : ℕ} (sorted_usage : Fin (B + 1) → Fin N → α)
    (free_list : Fin (B + 1) → Fin N → Fin N) : Fin (B + 1) → Fin N → α :=
  scatter_rows free_list
    (fun b p => (1 - sorted_usage b p) * ∏ q ∈ Finset.Iio p, sorted_usage b q)

/-- The divisors used by `get_allocation_weight` (`memory.py` lines 112-113): the
entries of batch row `0` and of batch row `-1` of `sorted_usage`. -/
def alloc_divisors_nonzero {B N : ℕ} (sorted_usage : Fin (B + 1) → Fin N → α) : Prop :=
  ∀ p, sorted_usage 0 p ≠ 0 ∧ sorted_usage (Fin.last B) p ≠ 0

instance {B N : ℕ} (sorted_usage : Fin (B + 1) → Fin N → α) :
    Decidable (alloc_divisors_nonzero sorted_usage) := by
  unfold alloc_divisors_nonzero; infer_instance

/-- `get_allocation_weight` with its divisions made explicitly fallible: the
source guards neither division on lines 112-113 with an epsilon, so the result is
well defined only when every divisor is non-zero; otherwise the float code
produces a non-finite value, modelled here as `none`. -/
def get_allocation_weight_checked {B N : ℕ} (sorted_usage : Fin (B + 1) → Fin N → α)
    (free_list : Fin (B + 1) → Fin N → Fin N) : Option (Fin (B + 1) → Fin N → α) :=
  if alloc_divisors_nonzero sorted_usage then
    some (get_allocation_weight sorted_usage free_list)
  else none

/-- `Memory.update_write_weight` (`memory.py` lines 131-155); `lookup_weight` has
shape `[B, N, 1]` and is viewed down to `[B, N]`, and the `[B, 1]` gates broadcast
over the slot dimension. -/
def update_write_weight {B N : ℕ} (lookup_weight : Fin B → Fin N → Fin 1 → α)
    (allocation_weight : Fin B → Fin N → α) (write_gate : Fin B → α)
    (allocation_gate : Fin B → α) : Fin B → Fin N → α :=
  fun b n =>
    write_gate b * (allocation_gate b * allocation_weight b n +
      (1 - allocation_gate b) * lookup_weight b n 0)

/-- `Memory.update_memory` (`memory.py` lines 157-187): the write weight is
expanded to `[B, N, 1]` and the write/erase vectors to `[B, 1, W]`, so the two
`torch.mm` calls are batched outer products. -/
def update_memory {B N W : ℕ} (memory_matrix : Fin B → Fin N → Fin W → α)
    (write_weight : Fin B → Fin N → α) (write_vector : Fin B → Fin W → α)
    (erase_vector : Fin B → Fin W → α) : Fin B → Fin N → Fin W → α :=
  let ww3 : Fin B → Fin N → Fin 1 → α := fun b n _ => write_weight b n
  let wv3 : Fin B → Fin 1 → Fin W → α := fun b _ w => write_vector b w
  let ev3 : Fin B → Fin 1 → Fin W → α := fun b _ w => erase_vector b w
  let erasing := fun b n w => memory_matrix b n w * (1 - mm ww3 ev3 b n w)
  let writing := mm ww3 wv3
  fun b n w => erasing b n w + writing b n w

/-- `Memory.update_precedence_vector` (`memory.py` lines 189-208). -/
def update_precedence_vector {B N : ℕ} (precedence_vector : Fin B → Fin N → α)
    (write_weight : Fin B → Fin N → α) : Fin B → Fin N → α :=
  fun b n => (1 - ∑ i, write_weight b i) * precedence_vector b n + write_weight b n

/-- `Memory.update_link_matrix` (`memory.py` lines 210-235).  `pairwise_add` lives
in the absent `neucom/utils.py`; modelled from the spec (§4.6): the pairwise
additive broadcast `writeWeight[i] + writeWeight[j]`.  `torch.mm` of the expanded
`[B, N, 1]` write weight with the `[B, 1, N]` precedence vector is the batched
outer product, and `self.I` is the `mem_slot × mem_slot` identity matrix, so
`(1 - self.I)` zeroes the diagonal. -/
def update_link_matrix {B N : ℕ} (precedence_vector : Fin B → Fin N → α)
    (link_matrix : Fin B → Fin N → Fin N → α) (write_weight : Fin B → Fin N → α) :
    Fin B → Fin N → Fin N → α :=
  fun b i j =>
    (1 - (if i = j then (1 : α) else 0)) *
      ((1 - (write_weight b i + write_weight b j)) * link_matrix b i j +
        write_weight b i * precedence_vector b j)

/-- `Memory.get_directional_weights` (`memory.py` lines 237-258).  The source's
`link_matrix.transpose(0,1)` swaps the batch dimension with the first slot
dimension (not the two slot dimensions), so the batched product against the
`[B, N, R]` read weights is only shape-consistent when the batch size equals the
slot count; the embedding therefore uses one size `n` for both. -/
def get_directional_weights {n R : ℕ} (read_weights : Fin n → Fin n → Fin R → α)
    (link_matrix : Fin n → Fin n → Fin n → α) :
    (Fin n → Fin n → Fin R → α) × (Fin n → Fin n → Fin R → α) :=
  (mm link_matrix read_weights, mm (transpose01 link_matrix) read_weights)

/-- `Memory.update_read_weights` (`memory.py` lines 260-283): the three slices of
`read_mode` along dimension 1 broadcast over the slot dimension (index 0 =
backward, 1 = lookup, 2 = forward). -/
def update_read_weights {B N R : ℕ} (lookup_weights : Fin B → Fin N → Fin R → α)
    (forward_weight : Fin B → Fin N → Fin R → α)
    (backward_weight : Fin B → Fin N → Fin R → α)
    (read_mode : Fin B → Fin 3 → Fin R → α) : Fin B → Fin N → Fin R → α :=
  fun b n k =>
    read_mode b 0 k * backward_weight b n k + read_mode b 1 k * lookup_weights b n k +
      read_mode b 2 k * forward_weight b n k

/-- `Memory.update_read_vectors` (`memory.py` lines 285-301).  As in
`get_directional_weights`, the source transposes dimensions 0 and 1 of the
`[B, N, W]` memory matrix, giving `[N, B, W]`; the batched product against the
`[B, N, R]` read weights is only shape-consistent when `B = N = W`, so the
embedding uses one size `n` for all three. -/
def update_read_vectors {n R : ℕ} (memory_matrix : Fin n → Fin n → Fin n → α)
    (read_weights : Fin n → Fin n → Fin R → α) : Fin n → Fin n → Fin R → α :=
  mm (transpose01 memory_matrix) read_weights

/-- Modelled from the spec: the small positive epsilon added to the cosine
denominators by `cosine_distance` in the absent `neucom/utils.py` (§4.1: "a
small epsilon added to denominators to avoid division by zero"). -/
noncomputable def cosine_epsilon : ℝ := 1 / 1000000000

/-- Modelled from the spec: `cosine_distance` lives in the absent
`neucom/utils.py`; per §4.1 it is the dot product of every slot vector with
every key vector, normalized by the product of their L2 norms with
`cosine_epsilon` added to the denominator. -/
noncomputable def cosine_distance {B N W K : ℕ}
    (memory_matrix : Fin B → Fin N → Fin W → ℝ) (keys : Fin B → Fin W → Fin K → ℝ) :
    Fin B → Fin N → Fin K → ℝ :=
  fun b n k =>
    (∑ w, memory_matrix b n w * keys b w k) /
      (Real.sqrt (∑ w, memory_matrix b n w ^ 2) * Real.sqrt (∑ w, keys b w k ^ 2) +
        cosine_epsilon)

/-- Modelled from the spec: `softmax(x, 1)` from the absent `neucom/utils.py`,
the standard softmax taken along dimension 1 (the slot dimension). -/
noncomputable def softmax {B N K : ℕ} (x : Fin B → Fin N → Fin K → ℝ) :
    Fin B → Fin N → Fin K → ℝ :=
  fun b n k => Real.exp (x b n k) / ∑ i, Real.exp (x b i k)

/-- `Memory.get_content_address` (`memory.py` lines 53-74): cosine similarity of
the memory against the keys, scaled by the per-key strengths (broadcast over the
slot dimension), followed by softmax along the slot dimension. -/
noncomputable def get_content_address {B N W K : ℕ}
    (memory_matrix : Fin B → Fin N → Fin W → ℝ) (keys : Fin B → Fin W → Fin K → ℝ)
    (strengths : Fin B → Fin K → ℝ) : Fin B → Fin N → Fin K → ℝ :=
  softmax (fun b n k => cosine_distance memory_matrix keys b n k * strengths b k)

/-- The sorted order of one usage row (`memory.py` lines 352-353,
`np.argsort(new_usage_vector, axis=-1)`): the list of original indices in
ascending order of usage, ties broken by original index. -/
def argsortList {N : ℕ} (u : Fin N → α) : List (Fin N) :=
  (List.finRange N).mergeSort (fun i j => decide (u i < u j ∨ (u i = u j ∧ i ≤ j)))

/-- The free list as a function: sorted position `p` maps to the original index
of the `p`-th smallest usage entry. -/
def argsort {N : ℕ} (u : Fin N → α) : Fin N → Fin N := fun p =>
  (argsortList u).get ⟨p.val, by
    rw [argsortList, List.length_mergeSort, List.length_finRange]
    exact p.isLt⟩

/-- `Memory.write` (`memory.py` lines 304-369): content lookup, usage update,
usage argsort producing the free list and the gathered sorted usage, allocation
weighting, write-weight composition, memory update, link-matrix update and
precedence update, returning the five updated tensors in the source's order. -/
noncomputable def write {B N W R : ℕ}
    (memory_matrix : Fin (B + 1) → Fin N → Fin W → ℝ)
    (usage_vector : Fin (B + 1) → Fin N → ℝ)
    (read_weights : Fin (B + 1) → Fin N → Fin R → ℝ)
    (write_weight : Fin (B + 1) → Fin N → ℝ)
    (precedence_vector : Fin (B + 1) → Fin N → ℝ)
    (link_matrix : Fin (B + 1) → Fin N → Fin N → ℝ)
    (key : Fin (B + 1) → Fin W → Fin 1 → ℝ)
    (strength : Fin (B + 1) → Fin 1 → ℝ)
    (free_gates : Fin (B + 1) → Fin R → ℝ)
    (allocation_gate : Fin (B + 1) → ℝ)
    (write_gate : Fin (B + 1) → ℝ)
    (write_vector : Fin (B + 1) → Fin W → ℝ)
    (erase_vector : Fin (B + 1) → Fin W → ℝ) :
    (Fin (B + 1) → Fin N → ℝ) × (Fin (B + 1) → Fin N → ℝ) ×
      (Fin (B + 1) → Fin N → Fin W → ℝ) × (Fin (B + 1) → Fin N → Fin N → ℝ) ×
      (Fin (B + 1) → Fin N → ℝ) :=
  let lookup_weight := get_content_address memory_matrix key strength
  let new_usage_vector := update_usage_vector usage_vector read_weights write_weight free_gates
  let free_list := fun b => argsort (new_usage_vector b)
  let sorted_usage := fun b p => new_usage_vector b (free_list b p)
  let allocation_weight := get_allocation_weight sorted_usage free_list
  let new_write_weight := update_write_weight lookup_weight allocation_weight write_gate allocation_gate
  let new_memory_matrix := update_memory memory_matrix new_write_weight write_vector erase_vector
  let new_link_matrix := update_link_matrix precedence_vector link_matrix new_write_weight
  let new_precedence_vector := update_precedence_vector precedence_vector new_write_weight
  (new_usage_vector, new_write_weight, new_memory_matrix, new_link_matrix, new_precedence_vector)

/-- `Memory.read` (`memory.py` lines 372-401): content lookup, directional
weighting from the link matrix, read-weight composition by the read modes, and
read-vector retrieval, returning the new read weights and read vectors.  The
transposes inside `get_directional_weights` and `update_read_vectors` force the
batch size, slot count and word size to coincide (see those definitions). -/
noncomputable def read {n R : ℕ} (memory_matrix : Fin n → Fin n → Fin n → ℝ)
    (read_weights : Fin n → Fin n → Fin R → ℝ) (keys : Fin n → Fin n → Fin R → ℝ)
    (strengths : Fin n → Fin R → ℝ) (link_matrix : Fin n → Fin n → Fin n → ℝ)
    (read_modes : Fin n → Fin 3 → Fin R → ℝ) :
    (Fin n → Fin n → Fin R → ℝ) × (Fin n → Fin n → Fin R → ℝ) :=
  let lookup_weight := get_content_address memory_matrix keys strengths
  let directional := get_directional_weights read_weights link_matrix
  let new_read_weights := update_read_weights lookup_weight directional.1 directional.2 read_modes
  let new_read_vectors := update_read_vectors memory_matrix new_read_weights
  (new_read_weights, new_read_vectors)

/-- One `read` call threaded through the Memory State record, as the spec's §3
prescribes (the state is "threaded immutably": each operation takes the previous
state and returns a new one): `read` produces the new read weights and read
vectors, and every other state tensor is passed through. -/
noncomputable def read_step {n R : ℕ} (s : MemState n n n R ℝ)
    (keys : Fin n → Fin n → Fin R → ℝ) (strengths : Fin n → Fin R → ℝ)
    (read_modes : Fin n → Fin 3 → Fin R → ℝ) : MemState n n n R ℝ :=
  let out := read s.mem_mat s.read_weight keys strengths s.link_mat read_modes
  { s with read_weight := out.1, read_vec := out.2 }

/-! ## Helper lemmas -/

/-- Scattering through an injective free list places the weight of sorted
position `p` at original slot `free_list b p`. -/
lemma scatter_rows_apply {B N : ℕ} (free_list : Fin B → Fin N → Fin N)
    (w : Fin B → Fin N → α) (b : Fin B) (p : Fin N)
    (hinj : Function.Injective (free_list b)) :
    scatter_rows free_list w b (free_list b p) = w b p := by
  unfold scatter_rows
  rw [Finset.sum_eq_single p]
  · simp
  · intro q _ hq
    rw [if_neg (fun h => hq (hinj h))]
  · intro h
    exact absurd (Finset.mem_univ p) h

/-- The diagonal of `update_link_matrix` is zero for all inputs, because the
result is multiplied by `1 - I` with `I` the identity matrix. -/
lemma update_link_matrix_diag {B N : ℕ} (precedence_vector : Fin B → Fin N → α)
    (link_matrix : Fin B → Fin N → Fin N → α) (write_weight : Fin B → Fin N → α)
    (b : Fin B) (i : Fin N) :
    update_link_matrix precedence_vector link_matrix write_weight b i i = 0 := by
  simp [update_link_matrix]

/-! ## Claim C3 -/

/-- Claim C3: the link matrix returned by `update_link_matrix` has every
diagonal entry exactly zero for all inputs — and therefore so does the link
matrix returned by every `write` call, in any sequence of calls. -/
theorem link_matrix_diag_zero :
    (∀ (B N : ℕ) (precedence_vector : Fin B → Fin N → ℚ)
        (link_matrix : Fin B → Fin N → Fin N → ℚ)
        (write_weight : Fin B → Fin N → ℚ) (b : Fin B) (i : Fin N),
        update_link_matrix precedence_vector link_matrix write_weight b i i = 0) ∧
      ∀ (B N W R : ℕ)
        (memory_matrix : Fin (B + 1) → Fin N → Fin W → ℝ)
        (usage_vector : Fin (B + 1) → Fin N → ℝ)
        (read_weights : Fin (B + 1) → Fin N → Fin R → ℝ)
        (write_weight : Fin (B + 1) → Fin N → ℝ)
        (precedence_vector : Fin (B + 1) → Fin N → ℝ)
        (link_matrix : Fin (B + 1) → Fin N → Fin N → ℝ)
        (key : Fin (B + 1) → Fin W → Fin 1 → ℝ)
        (strength : Fin (B + 1) → Fin 1 → ℝ)
        (free_gates : Fin (B + 1) → Fin R → ℝ)
        (allocation_gate write_gate : Fin (B + 1) → ℝ)
        (write_vector erase_vector : Fin (B + 1) → Fin W → ℝ)
        (b : Fin (B + 1)) (i : Fin N),
        (write memory_matrix usage_vector read_weights write_weight precedence_vector
            link_matrix key strength free_gates allocation_gate write_gate write_vector
            erase_vector).2.2.2.1 b i i = 0 := by
  refine ⟨fun B N pv l ww b i => update_link_matrix_diag pv l ww b i, ?_⟩
  intro B N W R memory_matrix usage_vector read_weights write_weight precedence_vector
    link_matrix key strength free_gates allocation_gate write_gate write_vector
    erase_vector b i
  exact update_link_matrix_diag _ _ _ b i

/-! ## Claim C4 -/

/-- Concrete link matrix used to exhibit the transpose slip in
`get_directional_weights`: batch row 0 links slot 0 to slot 1, batch row 1 is
zero. -/
def bug_link : Fin 2 → Fin 2 → Fin 2 → ℚ :=
  ![![![0, 1], ![0, 0]], ![![0, 0], ![0, 0]]]

/-- Concrete previous read weights for the same input: in batch row 0 the single
head reads slot 1, batch row 1 is zero. -/
def bug_read_weights : Fin 2 → Fin 2 → Fin 1 → ℚ :=
  ![![![0], ![1]], ![![0], ![0]]]

/-- Claim C4 fails on the code for the backward weight: the forward weight is
the batched product of the link matrix with the read weights as claimed, but the
backward weight uses `link_matrix.transpose(0,1)`, which swaps the batch and
first slot dimensions rather than the two slot dimensions within each batch row
(shape-consistent only when the batch size equals the slot count).  On
`bug_link`/`bug_read_weights` the code's backward entry at batch 0, slot 0,
head 0 is `1`, while the claimed `transpose(link) · readWeights` entry — written
out as its defining sum — is `0`. -/
theorem directional_weights_backward_transpose_bug :
    (∀ (n R : ℕ) (read_weights : Fin n → Fin n → Fin R → ℚ)
        (link_matrix : Fin n → Fin n → Fin n → ℚ) (b i : Fin n) (k : Fin R),
        (get_directional_weights read_weights link_matrix).1 b i k =
          ∑ j, link_matrix b i j * read_weights b j k) ∧
      (get_directional_weights bug_read_weights bug_link).2 0 0 0 = 1 ∧
      (∑ j, bug_link 0 j 0 * bug_read_weights 0 j 0) = 0 := by
  refine ⟨fun n R rw l b i k => rfl, ?_, ?_⟩
  · show (∑ j, transpose01 bug_link 0 0 j * bug_read_weights 0 j 0) = 1
    rw [Fin.sum_univ_two]
    norm_num [transpose01, bug_link, bug_read_weights]
  · rw [Fin.sum_univ_two]
    norm_num [bug_link, bug_read_weights]

/-! ## Claim C6 -/

/-- Claim C6: every per-key column of `get_content_address` is a probability
distribution over the slots — all entries are non-negative and each column sums
to exactly 1 (the float tolerance of the claim is exact over `ℝ`). -/
theorem content_address_distribution {B N W K : ℕ}
    (memory_matrix : Fin B → Fin (N + 1) → Fin W → ℝ)
    (keys : Fin B → Fin W → Fin K → ℝ) (strengths : Fin B → Fin K → ℝ)
    (b : Fin B) (k : Fin K) :
    (∀ i, 0 ≤ get_content_address memory_matrix keys strengths b i k) ∧
      (∑ i, get_content_address memory_matrix keys strengths b i k) = 1 := by
  have hpos :
      0 < ∑ i, Real.exp (cosine_distance memory_matrix keys b i k * strengths b k) :=
    Finset.sum_pos (fun i _ => Real.exp_pos _) Finset.univ_nonempty
  constructor
  · intro i
    show 0 ≤ Real.exp (cosine_distance memory_matrix keys b i k * strengths b k) /
      ∑ j, Real.exp (cosine_distance memory_matrix keys b j k * strengths b k)
    exact div_nonneg (Real.exp_nonneg _) hpos.le
  · show (∑ i, Real.exp (cosine_distance memory_matrix keys b i k * strengths b k) /
      ∑ j, Real.exp (cosine_distance memory_matrix keys b j k * strengths b k)) = 1
    rw [← Finset.sum_div]
    exact div_self hpos.ne'

/-! ## Claim C8 -/

/-- Claim C8: threading a `read` call through the Memory State record leaves the
memory bank, usage vector, precedence vector, link matrix and write weight
unchanged — the call produces only the new read weights and read vectors — and
the memory bank returned by `write` is exactly `update_memory` applied to the
input bank with the freshly composed write weight, so the Memory Update step is
the only mutator of memory content. -/
theorem read_frame_write_memory_provenance :
    (∀ (n R : ℕ) (s : MemState n n n R ℝ) (keys : Fin n → Fin n → Fin R → ℝ)
        (strengths : Fin n → Fin R → ℝ) (read_modes : Fin n → Fin 3 → Fin R → ℝ),
        (read_step s keys strengths read_modes).mem_mat = s.mem_mat ∧
          (read_step s keys strengths read_modes).mem_usage = s.mem_usage ∧
          (read_step s keys strengths read_modes).pre_vec = s.pre_vec ∧
          (read_step s keys strengths read_modes).link_mat = s.link_mat ∧
          (read_step s keys strengths read_modes).write_weight = s.write_weight ∧
          (read_step s keys strengths read_modes).read_weight =
            (read s.mem_mat s.read_weight keys strengths s.link_mat read_modes).1 ∧
          (read_step s keys strengths read_modes).read_vec =
            (read s.mem_mat s.read_weight keys strengths s.link_mat read_modes).2) ∧
      ∀ (B N W R : ℕ)
        (memory_matrix : Fin (B + 1) → Fin N → Fin W → ℝ)
        (usage_vector : Fin (B + 1) → Fin N → ℝ)
        (read_weights : Fin (B + 1) → Fin N → Fin R → ℝ)
        (write_weight : Fin (B + 1) → Fin N → ℝ)
        (precedence_vector : Fin (B + 1) → Fin N → ℝ)
        (link_matrix : Fin (B + 1) → Fin N → Fin N → ℝ)
        (key : Fin (B + 1) → Fin W → Fin 1 → ℝ)
        (strength : Fin (B + 1) → Fin 1 → ℝ)
        (free_gates : Fin (B + 1) → Fin R → ℝ)
        (allocation_gate write_gate : Fin (B + 1) → ℝ)
        (write_vector erase_vector : Fin (B + 1) → Fin W → ℝ),
        (write memory_matrix usage_vector read_weights write_weight precedence_vector
            link_matrix key strength free_gates allocation_gate write_gate write_vector
            erase_vector).2.2.1 =
          update_memory memory_matrix
            ((write memory_matrix usage_vector read_weights write_weight
                precedence_vector link_matrix key strength free_gates allocation_gate
                write_gate write_vector erase_vector).2.1)
            write_vector erase_vector := by
  exact ⟨fun n R s keys strengths read_modes => ⟨rfl, rfl, rfl, rfl, rfl, rfl, rfl⟩,
    fun B N W R memory_matrix usage_vector read_weights write_weight precedence_vector
      link_matrix key strength free_gates allocation_gate write_gate write_vector
      erase_vector => rfl⟩

/-! ## Claim C9 -/

/-- Claim C9: `write` and `read` are deterministic pure functions of their
explicit inputs — two invocations with identical state tensors and identical
controller-supplied interface values return identical tensors. -/
theorem write_read_deterministic {B N W R n R2 : ℕ}
    (memory_matrix1 memory_matrix2 : Fin (B + 1) → Fin N → Fin W → ℝ)
    (usage_vector1 usage_vector2 : Fin (B + 1) → Fin N → ℝ)
    (read_weights1 read_weights2 : Fin (B + 1) → Fin N → Fin R → ℝ)
    (write_weight1 write_weight2 : Fin (B + 1) → Fin N → ℝ)
    (precedence_vector1 precedence_vector2 : Fin (B + 1) → Fin N → ℝ)
    (link_matrix1 link_matrix2 : Fin (B + 1) → Fin N → Fin N → ℝ)
    (key1 key2 : Fin (B + 1) → Fin W → Fin 1 → ℝ)
    (strength1 strength2 : Fin (B + 1) → Fin 1 → ℝ)
    (free_gates1 free_gates2 : Fin (B + 1) → Fin R → ℝ)
    (allocation_gate1 allocation_gate2 : Fin (B + 1) → ℝ)
    (write_gate1 write_gate2 : Fin (B + 1) → ℝ)
    (write_vector1 write_vector2 : Fin (B + 1) → Fin W → ℝ)
    (erase_vector1 erase_vector2 : Fin (B + 1) → Fin W → ℝ)
    (rmemory_matrix1 rmemory_matrix2 : Fin n → Fin n → Fin n → ℝ)
    (rread_weights1 rread_weights2 : Fin n → Fin n → Fin R2 → ℝ)
    (rkeys1 rkeys2 : Fin n → Fin n → Fin R2 → ℝ)
    (rstrengths1 rstrengths2 : Fin n → Fin R2 → ℝ)
    (rlink_matrix1 rlink_matrix2 : Fin n → Fin n → Fin n → ℝ)
    (rread_modes1 rread_modes2 : Fin n → Fin 3 → Fin R2 → ℝ)
    (h1 : memory_matrix1 = memory_matrix2) (h2 : usage_vector1 = usage_vector2)
    (h3 : read_weights1 = read_weights2) (h4 : write_weight1 = write_weight2)
    (h5 : precedence_vector1 = precedence_vector2) (h6 : link_matrix1 = link_matrix2)
    (h7 : key1 = key2) (h8 : strength1 = strength2) (h9 : free_gates1 = free_gates2)
    (h10 : allocation_gate1 = allocation_gate2) (h11 : write_gate1 = write_gate2)
    (h12 : write_vector1 = write_vector2) (h13 : erase_vector1 = erase_vector2)
    (h14 : rmemory_matrix1 = rmemory_matrix2) (h15 : rread_weights1 = rread_weights2)
    (h16 : rkeys1 = rkeys2) (h17 : rstrengths1 = rstrengths2)
    (h18 : rlink_matrix1 = rlink_matrix2) (h19 : rread_modes1 = rread_modes2) :
    write memory_matrix1 usage_vector1 read_weights1 write_weight1 precedence_vector1
        link_matrix1 key1 strength1 free_gates1 allocation_gate1 write_gate1
        write_vector1 erase_vector1 =
      write memory_matrix2 usage_vector2 read_weights2 write_weight2
        precedence_vector2 link_matrix2 key2 strength2 free_gates2 allocation_gate2
        write_gate2 write_vector2 erase_vector2 ∧
      read rmemory_matrix1 rread_weights1 rkeys1 rstrengths1 rlink_matrix1
          rread_modes1 =
        read rmemory_matrix2 rread_weights2 rkeys2 rstrengths2 rlink_matrix2
          rread_modes2 := by
  subst h1 h2 h3 h4 h5 h6 h7 h8 h9 h10 h11 h12 h13 h14 h15 h16 h17 h18 h19
  exact ⟨rfl, rfl⟩

/-- Claim C9, witness at a concrete all-zero input. -/
theorem write_read_deterministic_witness :
    @write 0 1 1 1 (fun _ _ _ => 0) (fun _ _ => 0) (fun _ _ _ => 0) (fun _ _ => 0)
        (fun _ _ => 0) (fun _ _ _ => 0) (fun _ _ _ => 0) (fun _ _ => 0)
        (fun _ _ => 0) (fun _ => 0) (fun _ => 0) (fun _ _ => 0) (fun _ _ => 0) =
      @write 0 1 1 1 (fun _ _ _ => 0) (fun _ _ => 0) (fun _ _ _ => 0) (fun _ _ => 0)
        (fun _ _ => 0) (fun _ _ _ => 0) (fun _ _ _ => 0) (fun _ _ => 0)
        (fun _ _ => 0) (fun _ => 0) (fun _ => 0) (fun _ _ => 0) (fun _ _ => 0) ∧
      @read 1 1 (fun _ _ _ => 0) (fun _ _ _ => 0) (fun _ _ _ => 0) (fun _ _ => 0)
          (fun _ _ _ => 0) (fun _ _ _ => 0) =
        @read 1 1 (fun _ _ _ => 0) (fun _ _ _ => 0) (fun _ _ _ => 0) (fun _ _ => 0)
          (fun _ _ _ => 0) (fun _ _ _ => 0) :=
  write_read_deterministic _ _ _ _ _ _ _ _ _ _ _ _ _ _ _ _ _ _ _ _ _ _ _ _ _ _ _ _ _ _
    _ _ _ _ _ _ _ _ rfl rfl rfl rfl rfl rfl rfl rfl rfl rfl rfl rfl rfl rfl rfl rfl
    rfl rfl rfl

/-! ## Claim C1 -/

/-- Claim C1, counterexample: on the single-batch sorted usage vector
`[1/2, 1/2]` with the identity free list, `get_allocation_weight` returns
`[1, 1/2]`, while the spec's exclusive-cumulative-product formula
(`allocation_weight_spec`) returns `[1/2, 1/4]`. -/
theorem alloc_weight_ne_exclusive_cumprod :
    get_allocation_weight (B := 0) (N := 2) (fun _ _ => (1 : ℚ) / 2) (fun _ p => p) ≠
      allocation_weight_spec (fun _ _ => (1 : ℚ) / 2) (fun _ p => p) := by
  intro h
  have h0 := congrFun (congrFun h 0) 0
  have e1 : Finset.Iic (0 : Fin 2) = {0} := by decide
  have e2 : Finset.Iio (0 : Fin 2) = ∅ := by decide
  simp only [get_allocation_weight, allocation_weight_spec, scatter_rows,
    Fin.sum_univ_two] at h0
  norm_num [e1, e2] at h0

/-- Claim C1, amended: at sorted position `p`, `get_allocation_weight` computes
`(1 − sortedUsage[b,p])` times the *inclusive* cumulative product of
`sortedUsage[b, 0..p]` divided elementwise by batch row `0` of `sortedUsage`,
with the last batch row further divided elementwise by batch row `B-1`; these
weights are scattered back through the free-list permutation to the original
slot indices (for a single batch row this equals the exclusive cumulative
product additionally divided by `sortedUsage[p]`, not the exclusive cumulative
product itself). -/
theorem alloc_weight_boundary_division {B N : ℕ}
    (sorted_usage : Fin (B + 1) → Fin N → ℚ)
    (free_list : Fin (B + 1) → Fin N → Fin N) (b : Fin (B + 1)) (p : Fin N)
    (hinj : Function.Injective (free_list b)) :
    get_allocation_weight sorted_usage free_list b (free_list b p) =
      (1 - sorted_usage b p) *
        ((∏ q ∈ Finset.Iic p, sorted_usage b q) / sorted_usage 0 p /
          (if b = Fin.last B then sorted_usage (Fin.last B) p else 1)) := by
  unfold get_allocation_weight
  rw [scatter_rows_apply _ _ _ _ hinj]
  by_cases hb : b = Fin.last B
  · simp [hb]
  · simp [hb]

/-- Claim C1, witness for the amended theorem at a concrete input. -/
theorem alloc_weight_boundary_division_witness :
    Function.Injective (fun p : Fin 2 => p) ∧
      get_allocation_weight (B := 0) (N := 2) (fun _ _ => (1 : ℚ) / 2) (fun _ p => p) 0 0 =
        (1 - (1 : ℚ) / 2) *
          ((∏ _q ∈ Finset.Iic (0 : Fin 2), (1 : ℚ) / 2) / ((1 : ℚ) / 2) /
            (if (0 : Fin 1) = Fin.last 0 then (1 : ℚ) / 2 else 1)) :=
  ⟨by decide,
    alloc_weight_boundary_division (fun _ _ => (1 : ℚ) / 2) (fun _ p => p) 0 0 (by decide)⟩

/-! ## Claim C2 -/

/-- Claim C2 fails on the code: with one batch row, one slot and one read head,
previous usage `1/2`, previous write weight `1/2`, previous read weight `0` and
free gate `0`, `update_usage_vector` returns `3/2`, which lies outside `[0,1]`
(the retention factor on line 92 is `prod(2 - r*f)`, not `prod(1 - r*f)`, so it
equals `2` here instead of `1` and the claimed value `3/4` is not produced). -/
theorem usage_vector_two_minus_retention :
    update_usage_vector (B := 1) (N := 1) (R := 1) (fun _ _ => (1 : ℚ) / 2)
        (fun _ _ _ => 0) (fun _ _ => (1 : ℚ) / 2) (fun _ _ => 0) 0 0 = 3 / 2 ∧
      ¬ ((3 : ℚ) / 2 ≤ 1) := by
  constructor
  · norm_num [update_usage_vector, Fin.prod_univ_one]
  · norm_num

/-! ## Claim C5 -/

/-- Claim C5: if the write weight is the all-zero vector, `update_memory`
returns the input memory bank exactly. -/
theorem update_memory_zero_write_noop {B N W : ℕ}
    (memory_matrix : Fin B → Fin N → Fin W → ℚ) (write_weight : Fin B → Fin N → ℚ)
    (write_vector erase_vector : Fin B → Fin W → ℚ)
    (h : ∀ b n, write_weight b n = 0) :
    update_memory memory_matrix write_weight write_vector erase_vector = memory_matrix := by
  funext b n w
  simp [update_memory, mm, h]

/-- Claim C5, witness at a concrete input. -/
theorem update_memory_zero_write_noop_witness :
    (∀ b n : Fin 1, (fun _ _ => (0 : ℚ)) b n = 0) ∧
      update_memory (B := 1) (N := 1) (W := 1) (fun _ _ _ => (1 : ℚ)) (fun _ _ => 0)
          (fun _ _ => 1) (fun _ _ => 1) = fun _ _ _ => (1 : ℚ) :=
  ⟨fun _ _ => rfl,
    update_memory_zero_write_noop _ _ _ _ (fun _ _ => rfl)⟩

/-! ## Claim C7 -/

/-- Claim C7: the divisions on lines 112-113 of `get_allocation_weight` carry no
epsilon guard, so on the all-zero usage vector of the initial state every
divisor is zero and the checked operation yields no (finite) result; it is total
exactly under the unstated precondition that the indexed sorted-usage entries
are all non-zero. -/
theorem alloc_weight_division_unguarded (B N : ℕ) :
    get_allocation_weight_checked (B := B) (N := N + 1) (fun _ _ => (0 : ℚ))
        (fun _ p => p) = none ∧
      ∀ (sorted_usage : Fin (B + 1) → Fin (N + 1) → ℚ)
        (free_list : Fin (B + 1) → Fin (N + 1) → Fin (N + 1)),
        alloc_divisors_nonzero sorted_usage →
        get_allocation_weight_checked sorted_usage free_list =
          some (get_allocation_weight sorted_usage free_list) := by
  constructor
  · rw [get_allocation_weight_checked, if_neg]
    intro hdiv
    exact (hdiv 0).1 rfl
  · intro su fl h
    rw [get_allocation_weight_checked, if_pos h]

/-- Claim C7, witness: at one batch row and one slot the zero usage vector is
rejected, while an all-ones usage vector satisfies the divisor precondition. -/
theorem alloc_weight_division_unguarded_witness :
    get_allocation_weight_checked (B := 0) (N := 1) (fun _ _ => (0 : ℚ))
        (fun _ p => p) = none ∧
      get_allocation_weight_checked (B := 0) (N := 1) (fun _ _ => (1 : ℚ))
          (fun _ p => p) =
        some (get_allocation_weight (fun _ _ => (1 : ℚ)) (fun _ p => p)) :=
  ⟨(alloc_weight_division_unguarded 0 0).1,
    (alloc_weight_division_unguarded 0 0).2 _ _ (by decide)⟩

/-! ## Claim C10 -/

/-- Claim C10: `init_memory` fills the memory bank, write weight, read weights
and read vectors with `1e-6` and zeroes the usage vector, precedence vector and
link matrix; consequently each write-weight row and per-head read-weight row
sums to `slotCount * 1e-6`, which is not `1` (whenever `slotCount ≠ 10^6`). -/
theorem init_memory_state (B N W R : ℕ) (b : Fin B) (r : Fin R)
    (hN : N ≠ 1000000) :
    (init_memory B N W R (α := ℚ)).mem_mat = (fun _ _ _ => 1 / 1000000) ∧
      (init_memory B N W R (α := ℚ)).mem_usage = (fun _ _ => 0) ∧
      (init_memory B N W R (α := ℚ)).pre_vec = (fun _ _ => 0) ∧
      (init_memory B N W R (α := ℚ)).link_mat = (fun _ _ _ => 0) ∧
      (init_memory B N W R (α := ℚ)).write_weight = (fun _ _ => 1 / 1000000) ∧
      (init_memory B N W R (α := ℚ)).read_weight = (fun _ _ _ => 1 / 1000000) ∧
      (init_memory B N W R (α := ℚ)).read_vec = (fun _ _ _ => 1 / 1000000) ∧
      (∑ i, (init_memory B N W R (α := ℚ)).write_weight b i) = N * (1 / 1000000) ∧
      (∑ i, (init_memory B N W R (α := ℚ)).write_weight b i) ≠ 1 ∧
      (∑ i, (init_memory B N W R (α := ℚ)).read_weight b i r) = N * (1 / 1000000) ∧
      (∑ i, (init_memory B N W R (α := ℚ)).read_weight b i r) ≠ 1 := by
  have hsum : (∑ _i : Fin N, (1 : ℚ) / 1000000) = N * (1 / 1000000) := by
    simp [Finset.sum_const, Finset.card_univ, nsmul_eq_mul]
  have hne : (N : ℚ) * (1 / 1000000) ≠ 1 := by
    intro h1
    apply hN
    have h2 : (N : ℚ) = 1000000 := by
      field_simp at h1
      exact_mod_cast h1
    exact_mod_cast h2
  refine ⟨rfl, rfl, rfl, rfl, rfl, rfl, rfl, ?_, ?_, ?_, ?_⟩
  · exact hsum
  · rw [show (∑ i, (init_memory B N W R (α := ℚ)).write_weight b i) =
      ∑ _i : Fin N, (1 : ℚ) / 1000000 from rfl, hsum]
    exact hne
  · exact hsum
  · rw [show (∑ i, (init_memory B N W R (α := ℚ)).read_weight b i r) =
      ∑ _i : Fin N, (1 : ℚ) / 1000000 from rfl, hsum]
    exact hne

/-- Claim C10, witness at the one-slot configuration. -/
theorem init_memory_state_witness :
    (∑ i, (init_memory 1 1 1 1 (α := ℚ)).write_weight 0 i) ≠ 1 :=
  (init_memory_state 1 1 1 1 0 0 (by decide)).2.2.2.2.2.2.2.2.1

end Neucom
